import Mathlib

/-!
Shallow embedding of `src/main.py` (a FastAPI gateway around the Gemini API
and a Postgres `conversations` table) and proofs about it.

The embedding models one request to the `POST /generate_ai_response`
endpoint.  External effects (Gemini client configuration, database
connectivity, the SELECT, the generative call, the INSERT-and-commit) are
supplied by an `Env` record; the handler returns the HTTP outcome together
with an `Effects` record describing what the request did to the outside
world (whether the history SELECT was attempted, the single AI call and its
arguments if one was made, the table contents after the request, and the
connection lifecycle).
-/

/-- One row of the `conversations` table.  `created_at` is monotonically
assigned by the store, so a `List Row` in insertion order is ordered by
`created_at` ascending; the embedding keeps the table as such a list. -/
structure Row where
  user_id : String
  session_id : String
  prompt : String
  response : String
deriving Repr, DecidableEq

/-- One role-tagged message of the Gemini `contents` list.  The source uses
dictionaries of shape `role` plus a single text part; we keep the role and
the text. -/
structure Message where
  role : String
  text : String
deriving Repr, DecidableEq

/-- The arguments of one `client.models.generate_content_async` call:
model identifier, the `contents` message list, and the system instruction
carried by the `GenerateContentConfig`. -/
structure AICall where
  model : String
  contents : List Message
  system_instruction : String
deriving Repr, DecidableEq

/-- Outcome of one request: a success body carrying the response text, or
an `HTTPException` with status code and detail. -/
inductive HTTPResult where
  | success (response : String) : HTTPResult
  | error (status : Nat) (detail : String) : HTTPResult
deriving Repr, DecidableEq

/-- Externally observable effects of one request. -/
structure Effects where
  historyLoadAttempted : Bool
  aiCall : Option AICall
  db : List Row
  connAcquired : Bool
  connClosed : Bool
deriving Repr, DecidableEq

/-- The external world a single request runs against: whether the Gemini
client was initialized (`client` is not `None`), whether
`get_db_connection` succeeds, the current `conversations` table (insertion
order), whether the history SELECT succeeds, the generative capability
(`none` models an exception from the AI call), and whether the
INSERT-and-commit succeeds. -/
structure Env where
  clientConfigured : Bool
  dbConnects : Bool
  db : List Row
  selectOk : Bool
  generate : AICall → Option String
  insertOk : Bool

/-- The `PromptRequest` pydantic model: three required `str` fields. -/
structure PromptRequest where
  user_id : String
  session_id : String
  prompt : String
deriving Repr, DecidableEq

/-- A raw JSON body as seen by pydantic validation: each field either
present (as a string) or absent. -/
structure RawBody where
  user_id : Option String
  session_id : Option String
  prompt : Option String
deriving Repr, DecidableEq

/-- Pydantic validation of `PromptRequest`: all three fields are required
(a missing field rejects the body); the declared type `str` imposes no
constraint on the contents, so any string, the empty one included, is
accepted. -/
def validatePromptRequest (b : RawBody) : Option PromptRequest :=
  match b.user_id, b.session_id, b.prompt with
  | some u, some s, some p => some { user_id := u, session_id := s, prompt := p }
  | _, _, _ => none

/-- The rows of the `conversations` table matching the WHERE clause
`user_id = %s AND session_id = %s`, in insertion order. -/
def sessionRows (db : List Row) (uid sid : String) : List Row :=
  db.filter (fun r => r.user_id == uid && r.session_id == sid)

/-- The history SELECT of the handler:
`SELECT prompt, response FROM conversations WHERE user_id = %s AND
session_id = %s ORDER BY created_at DESC LIMIT 5`.  Since `created_at` is
monotone in insertion order, ORDER BY DESC is the reverse of the
insertion-ordered match list, and LIMIT 5 takes the first five of it. -/
def fetchRecentTurns (db : List Row) (uid sid : String) : List (String × String) :=
  (((sessionRows db uid sid).map (fun r => (r.prompt, r.response))).reverse).take 5

/-- The two messages appended to `chat_history` for one historical record:
the user's prompt with role `user`, then the AI's answer with role
`model`. -/
def turnBlock (pr : String × String) : List Message :=
  [{ role := "user", text := pr.1 }, { role := "model", text := pr.2 }]

/-- The `chat_history` loop of the handler: iterate over
`reversed(history_records)` and append a `user` message and a `model`
message for each record. -/
def chatHistoryOf (history_records : List (String × String)) : List Message :=
  history_records.reverse.foldl (fun chat_history pr => chat_history ++ turnBlock pr) []

/-- The fixed system instruction string of the handler. -/
def system_instruction : String :=
  "You are a helpful and friendly assistant. Use the provided chat history to answer the current prompt concisely."

/-- The `contents` list handed to the AI call: `chat_history` followed by
the current prompt as a final `user` message. -/
def contentsOf (history_records : List (String × String)) (currentPrompt : String) : List Message :=
  chatHistoryOf history_records ++ [{ role := "user", text := currentPrompt }]

/-- The single AI call the handler makes for a request, given the table
contents: model `gemini-2.5-flash`, the assembled `contents`, and the
system instruction in the config. -/
def theAICall (db : List Row) (request : PromptRequest) : AICall :=
  { model := "gemini-2.5-flash"
    contents := contentsOf (fetchRecentTurns db request.user_id request.session_id) request.prompt
    system_instruction := system_instruction }

/-- The `POST /generate_ai_response` handler of `src/main.py`.

Control flow mirrors the source line by line: fail with 503 if the Gemini
client is not configured; acquire a connection and fail with 500 if that
fails; inside the try block run the history SELECT, build `chat_history`
and `contents`, make the AI call, INSERT-and-commit the new turn, and
return the response body; any exception inside the try block (SELECT
failure, AI failure, INSERT failure) is caught and mapped to the 500
internal error; the finally block closes the connection whenever one was
acquired. -/
def generate_ai_response (env : Env) (request : PromptRequest) : HTTPResult × Effects :=
  if env.clientConfigured = false then
    (HTTPResult.error 503 "AI Service not available (Check GEMINI_API_KEY).",
     { historyLoadAttempted := false, aiCall := none, db := env.db,
       connAcquired := false, connClosed := false })
  else if env.dbConnects = false then
    (HTTPResult.error 500 "Database connection error (Check DATABASE_URL).",
     { historyLoadAttempted := false, aiCall := none, db := env.db,
       connAcquired := false, connClosed := false })
  else if env.selectOk = false then
    (HTTPResult.error 500 "Internal server error during AI processing.",
     { historyLoadAttempted := true, aiCall := none, db := env.db,
       connAcquired := true, connClosed := true })
  else
    let call := theAICall env.db request
    match env.generate call with
    | none =>
        (HTTPResult.error 500 "Internal server error during AI processing.",
         { historyLoadAttempted := true, aiCall := some call, db := env.db,
           connAcquired := true, connClosed := true })
    | some ai_response_text =>
        if env.insertOk = false then
          (HTTPResult.error 500 "Internal server error during AI processing.",
           { historyLoadAttempted := true, aiCall := some call, db := env.db,
             connAcquired := true, connClosed := true })
        else
          (HTTPResult.success ai_response_text,
           { historyLoadAttempted := true, aiCall := some call,
             db := env.db ++ [{ user_id := request.user_id, session_id := request.session_id,
                                prompt := request.prompt, response := ai_response_text }],
             connAcquired := true, connClosed := true })

/-- Role-alternation checker: when `userTurn` is `true` the next message
must have role `user`, otherwise role `model`, alternating down the
list. -/
def rolesAlternate (userTurn : Bool) : List Message → Bool
  | [] => true
  | m :: ms => (m.role == (if userTurn then "user" else "model")) && rolesAlternate (!userTurn) ms

theorem foldl_turnBlock (l : List (String × String)) :
    ∀ init : List Message,
      l.foldl (fun acc pr => acc ++ turnBlock pr) init = init ++ l.flatMap turnBlock := by
  induction l with
  | nil => intro init; simp
  | cons a t ih =>
      intro init
      simp only [List.foldl_cons, List.flatMap_cons, ih, List.append_assoc]

theorem chatHistoryOf_eq (l : List (String × String)) :
    chatHistoryOf l = l.reverse.flatMap turnBlock := by
  unfold chatHistoryOf
  rw [foldl_turnBlock, List.nil_append]

theorem length_flatMap_turnBlock (l : List (String × String)) :
    (l.flatMap turnBlock).length = 2 * l.length := by
  induction l with
  | nil => rfl
  | cons a t ih =>
      simp only [List.flatMap_cons, List.length_append, ih, turnBlock, List.length_cons,
        List.length_nil, List.length_cons]
      omega

theorem rolesAlternate_flatMap (l : List (String × String)) (tail : List Message) :
    rolesAlternate true (l.flatMap turnBlock ++ tail) = rolesAlternate true tail := by
  induction l with
  | nil => rfl
  | cons a t ih =>
      simp only [List.flatMap_cons, turnBlock, List.append_assoc, List.cons_append,
        List.nil_append, rolesAlternate, beq_self_eq_true, Bool.true_and, Bool.not_true,
        Bool.not_false, if_true, if_false]
      exact ih

theorem noSystem_flatMap (l : List (String × String)) :
    (l.flatMap turnBlock).all (fun m => !(m.role == "system")) = true := by
  induction l with
  | nil => rfl
  | cons a t ih =>
      simp only [List.flatMap_cons, turnBlock, List.all_append, List.all_cons, List.all_nil, ih]
      decide

theorem aiCall_eq (env : Env) (request : PromptRequest)
    (hc : env.clientConfigured = true) (hdb : env.dbConnects = true)
    (hsel : env.selectOk = true) :
    (generate_ai_response env request).2.aiCall = some (theAICall env.db request) := by
  cases hai : env.generate (theAICall env.db request) with
  | none => simp [generate_ai_response, hc, hdb, hsel, hai]
  | some t =>
      by_cases hins : env.insertOk = false <;>
        simp [generate_ai_response, hc, hdb, hsel, hai, hins]

example : fetchRecentTurns [⟨"u", "s", "q1", "a1"⟩, ⟨"u", "s", "q2", "a2"⟩] "u" "s"
    = [("q2", "a2"), ("q1", "a1")] := by decide

example : contentsOf [("q2", "a2"), ("q1", "a1")] "Hello"
    = [⟨"user", "q1"⟩, ⟨"model", "a1"⟩, ⟨"user", "q2"⟩, ⟨"model", "a2"⟩, ⟨"user", "Hello"⟩] := by
  decide

example :
    (generate_ai_response
      { clientConfigured := true, dbConnects := true, db := [], selectOk := true,
        generate := fun _ => some "Hi there", insertOk := true }
      { user_id := "u", session_id := "s", prompt := "Hello" }).1
    = HTTPResult.success "Hi there" := by decide

/-- C6: for every request arriving while the AI capability is unconfigured
(the Gemini client is `None`), the request fails fast with the 503
AI-service-unavailable error, the history load is never attempted, no
connection is acquired, and no Turn is persisted (the table is
unchanged). -/
theorem ai_unconfigured_fails_fast (env : Env) (request : PromptRequest)
    (hc : env.clientConfigured = false) :
    generate_ai_response env request
      = (HTTPResult.error 503 "AI Service not available (Check GEMINI_API_KEY).",
         { historyLoadAttempted := false, aiCall := none, db := env.db,
           connAcquired := false, connClosed := false }) := by
  simp [generate_ai_response, hc]

/-- Witness for `ai_unconfigured_fails_fast` at a concrete input. -/
theorem ai_unconfigured_fails_fast_witness :
    generate_ai_response
        { clientConfigured := false, dbConnects := true, db := [], selectOk := true,
          generate := fun _ => some "ok", insertOk := true }
        { user_id := "u", session_id := "s", prompt := "Hello" }
      = (HTTPResult.error 503 "AI Service not available (Check GEMINI_API_KEY).",
         { historyLoadAttempted := false, aiCall := none, db := [],
           connAcquired := false, connClosed := false }) :=
  ai_unconfigured_fails_fast _ _ rfl

/-- C3: for every request in which the store is unreachable at
history-load time (`get_db_connection` fails), the request fails with the
database-connection error (the Store-unavailable outcome), no AI call is
made, and no Turn is persisted (the table is unchanged). -/
theorem store_unavailable_fails_fast (env : Env) (request : PromptRequest)
    (hc : env.clientConfigured = true) (hdb : env.dbConnects = false) :
    generate_ai_response env request
      = (HTTPResult.error 500 "Database connection error (Check DATABASE_URL).",
         { historyLoadAttempted := false, aiCall := none, db := env.db,
           connAcquired := false, connClosed := false }) := by
  simp [generate_ai_response, hc, hdb]

/-- Witness for `store_unavailable_fails_fast` at a concrete input. -/
theorem store_unavailable_fails_fast_witness :
    generate_ai_response
        { clientConfigured := true, dbConnects := false,
          db := [{ user_id := "u", session_id := "s", prompt := "q1", response := "a1" }],
          selectOk := true, generate := fun _ => some "ok", insertOk := true }
        { user_id := "u", session_id := "s", prompt := "Hello" }
      = (HTTPResult.error 500 "Database connection error (Check DATABASE_URL).",
         { historyLoadAttempted := false, aiCall := none,
           db := [{ user_id := "u", session_id := "s", prompt := "q1", response := "a1" }],
           connAcquired := false, connClosed := false }) :=
  store_unavailable_fails_fast _ _ rfl rfl

/-- C4: for every request in which the AI call fails, the request
terminates with the 500 internal error and no Turn is persisted for that
request: the stored rows are unchanged. -/
theorem no_record_on_ai_failure (env : Env) (request : PromptRequest)
    (hc : env.clientConfigured = true) (hdb : env.dbConnects = true)
    (hsel : env.selectOk = true)
    (hai : env.generate (theAICall env.db request) = none) :
    (generate_ai_response env request).1
        = HTTPResult.error 500 "Internal server error during AI processing."
      ∧ (generate_ai_response env request).2.db = env.db := by
  simp [generate_ai_response, hc, hdb, hsel, hai]

/-- Witness for `no_record_on_ai_failure` at a concrete input. -/
theorem no_record_on_ai_failure_witness :
    (generate_ai_response
        { clientConfigured := true, dbConnects := true,
          db := [{ user_id := "u", session_id := "s", prompt := "q1", response := "a1" }],
          selectOk := true, generate := fun _ => none, insertOk := true }
        { user_id := "u", session_id := "s", prompt := "Hello" }).1
        = HTTPResult.error 500 "Internal server error during AI processing."
      ∧ (generate_ai_response
        { clientConfigured := true, dbConnects := true,
          db := [{ user_id := "u", session_id := "s", prompt := "q1", response := "a1" }],
          selectOk := true, generate := fun _ => none, insertOk := true }
        { user_id := "u", session_id := "s", prompt := "Hello" }).2.db
        = [{ user_id := "u", session_id := "s", prompt := "q1", response := "a1" }] :=
  no_record_on_ai_failure _ _ rfl rfl rfl rfl

/-- C7: for every request in which generation succeeds (and the insert
commits), the caller receives the success body carrying the generated
text, and exactly one new Turn row with that request's user_id,
session_id, prompt and the generated response is appended to the table. -/
theorem success_inserts_exactly_one_turn (env : Env) (request : PromptRequest)
    (t : String)
    (hc : env.clientConfigured = true) (hdb : env.dbConnects = true)
    (hsel : env.selectOk = true)
    (hai : env.generate (theAICall env.db request) = some t)
    (hins : env.insertOk = true) :
    (generate_ai_response env request).1 = HTTPResult.success t
      ∧ (generate_ai_response env request).2.db
          = env.db ++ [{ user_id := request.user_id, session_id := request.session_id,
                         prompt := request.prompt, response := t }] := by
  simp [generate_ai_response, hc, hdb, hsel, hai, hins]

/-- Witness for `success_inserts_exactly_one_turn`: scenario A, empty
history, prompt Hello answered Hi there. -/
theorem success_inserts_exactly_one_turn_witness :
    (generate_ai_response
        { clientConfigured := true, dbConnects := true, db := [], selectOk := true,
          generate := fun _ => some "Hi there", insertOk := true }
        { user_id := "u", session_id := "s", prompt := "Hello" }).1
        = HTTPResult.success "Hi there"
      ∧ (generate_ai_response
        { clientConfigured := true, dbConnects := true, db := [], selectOk := true,
          generate := fun _ => some "Hi there", insertOk := true }
        { user_id := "u", session_id := "s", prompt := "Hello" }).2.db
        = [{ user_id := "u", session_id := "s", prompt := "Hello", response := "Hi there" }] :=
  success_inserts_exactly_one_turn _ _ "Hi there" rfl rfl rfl rfl rfl

/-- C9: for every request that acquires a store connection, the connection
is closed on every exit path of the handler: success, AI-call failure, and
persistence failure all pass through the finally block. -/
theorem connection_closed_on_every_exit (env : Env) (request : PromptRequest)
    (h : (generate_ai_response env request).2.connAcquired = true) :
    (generate_ai_response env request).2.connClosed = true := by
  by_cases hc : env.clientConfigured = false
  · simp [generate_ai_response, hc] at h
  · by_cases hdb : env.dbConnects = false
    · simp [generate_ai_response, hc, hdb] at h
    · by_cases hsel : env.selectOk = false
      · simp [generate_ai_response, hc, hdb, hsel]
      · cases hai : env.generate (theAICall env.db request) with
        | none => simp [generate_ai_response, hc, hdb, hsel, hai]
        | some t =>
            by_cases hins : env.insertOk = false <;>
              simp [generate_ai_response, hc, hdb, hsel, hai, hins]

/-- Witness for `connection_closed_on_every_exit` at a concrete input, on
the persistence-failure exit path. -/
theorem connection_closed_on_every_exit_witness :
    (generate_ai_response
        { clientConfigured := true, dbConnects := true, db := [], selectOk := true,
          generate := fun _ => some "ok", insertOk := false }
        { user_id := "u", session_id := "s", prompt := "Hello" }).2.connAcquired = true
      ∧ (generate_ai_response
        { clientConfigured := true, dbConnects := true, db := [], selectOk := true,
          generate := fun _ => some "ok", insertOk := false }
        { user_id := "u", session_id := "s", prompt := "Hello" }).2.connClosed = true :=
  ⟨by decide, connection_closed_on_every_exit _ _ (by decide)⟩

/-- C1 counterexample: with a configured client, a reachable store, a
successful AI call answering Hi there, and a failing INSERT, the caller
does not receive the generated text; the request fails with the 500
internal error, so the persistence failure is propagated. -/
theorem persist_failure_response_cex :
    (generate_ai_response
        { clientConfigured := true, dbConnects := true, db := [], selectOk := true,
          generate := fun _ => some "Hi there", insertOk := false }
        { user_id := "u", session_id := "s", prompt := "Hello" }).1
      ≠ HTTPResult.success "Hi there"
    ∧ (generate_ai_response
        { clientConfigured := true, dbConnects := true, db := [], selectOk := true,
          generate := fun _ => some "Hi there", insertOk := false }
        { user_id := "u", session_id := "s", prompt := "Hello" }).1
      = HTTPResult.error 500 "Internal server error during AI processing." := by
  decide

/-- C1 (amended): for every request in which the AI call succeeds but the
INSERT-and-commit step fails, the exception handler catches the failure
and the request terminates with the 500 internal error; the generated text
is not returned to the caller and the table is unchanged. -/
theorem persist_failure_propagates_internal_error (env : Env) (request : PromptRequest)
    (t : String)
    (hc : env.clientConfigured = true) (hdb : env.dbConnects = true)
    (hsel : env.selectOk = true)
    (hai : env.generate (theAICall env.db request) = some t)
    (hins : env.insertOk = false) :
    (generate_ai_response env request).1
        = HTTPResult.error 500 "Internal server error during AI processing."
      ∧ (generate_ai_response env request).1 ≠ HTTPResult.success t
      ∧ (generate_ai_response env request).2.db = env.db := by
  simp [generate_ai_response, hc, hdb, hsel, hai, hins]

/-- Witness for `persist_failure_propagates_internal_error` at a concrete
input. -/
theorem persist_failure_propagates_internal_error_witness :
    (generate_ai_response
        { clientConfigured := true, dbConnects := true, db := [], selectOk := true,
          generate := fun _ => some "ok", insertOk := false }
        { user_id := "u2", session_id := "s2", prompt := "Hi" }).1
        = HTTPResult.error 500 "Internal server error during AI processing."
      ∧ (generate_ai_response
        { clientConfigured := true, dbConnects := true, db := [], selectOk := true,
          generate := fun _ => some "ok", insertOk := false }
        { user_id := "u2", session_id := "s2", prompt := "Hi" }).1
        ≠ HTTPResult.success "ok"
      ∧ (generate_ai_response
        { clientConfigured := true, dbConnects := true, db := [], selectOk := true,
          generate := fun _ => some "ok", insertOk := false }
        { user_id := "u2", session_id := "s2", prompt := "Hi" }).2.db = [] :=
  persist_failure_propagates_internal_error _ _ "ok" rfl rfl rfl rfl rfl

/-- C8 counterexample: a body whose user_id is the empty string passes
pydantic validation, and the resulting request is processed as a normal
request: with a healthy environment it reaches the AI call and succeeds. -/
theorem empty_id_accepted_cex :
    validatePromptRequest { user_id := some "", session_id := some "s1", prompt := some "p1" }
        = some { user_id := "", session_id := "s1", prompt := "p1" }
    ∧ (generate_ai_response
        { clientConfigured := true, dbConnects := true, db := [], selectOk := true,
          generate := fun _ => some "ok", insertOk := true }
        { user_id := "", session_id := "s1", prompt := "p1" }).1
      = HTTPResult.success "ok" := by
  decide

/-- C8 (amended): the caller-facing operation requires all three inputs
user_id, session_id and prompt to be present (a body missing any of them
fails validation), but non-emptiness is not enforced: a body whose user_id
is the empty string passes validation unchanged and is processed as a
normal request. -/
theorem prompt_request_requires_presence :
    (∀ b : RawBody,
        (validatePromptRequest b).isSome = true
          ↔ (b.user_id.isSome = true ∧ b.session_id.isSome = true ∧ b.prompt.isSome = true))
    ∧ (∀ s p : String,
        validatePromptRequest { user_id := some "", session_id := some s, prompt := some p }
          = some { user_id := "", session_id := s, prompt := p }) := by
  constructor
  · intro b
    cases b with
    | mk u s p => cases u <;> cases s <;> cases p <;> simp [validatePromptRequest]
  · intro s p
    rfl

/-- C2 counterexample: with zero prior turns and prompt Hello, the message
sequence handed to the AI call is the single user message, not the
two-message sequence [system, current.user] claimed: the system
instruction is not a message of the sequence. -/
theorem context_system_message_cex :
    ((generate_ai_response
        { clientConfigured := true, dbConnects := true, db := [], selectOk := true,
          generate := fun _ => some "Hi there", insertOk := true }
        { user_id := "u", session_id := "s", prompt := "Hello" }).2.aiCall).map AICall.contents
      = some [{ role := "user", text := "Hello" }]
    ∧ ((generate_ai_response
        { clientConfigured := true, dbConnects := true, db := [], selectOk := true,
          generate := fun _ => some "Hi there", insertOk := true }
        { user_id := "u", session_id := "s", prompt := "Hello" }).2.aiCall).map AICall.contents
      ≠ some [{ role := "system", text := system_instruction },
              { role := "user", text := "Hello" }] := by
  decide

/-- C2 (amended): for every history of N prior turns T1..TN (oldest first,
N at most the window of 5) and every current prompt, the message sequence
handed to the AI capability is exactly [T1.user, T1.model, ..., TN.user,
TN.model, current.user] — no error, no reordering, no placeholder
messages — and the system instruction travels separately in the call's
config, not as a message of the sequence; for N = 0 the sequence is
exactly [current.user]. -/
theorem context_order (env : Env) (request : PromptRequest)
    (l : List (String × String))
    (hc : env.clientConfigured = true) (hdb : env.dbConnects = true)
    (hsel : env.selectOk = true)
    (hrows : (sessionRows env.db request.user_id request.session_id).map
        (fun r => (r.prompt, r.response)) = l)
    (hlen : l.length ≤ 5) :
    (generate_ai_response env request).2.aiCall
      = some { model := "gemini-2.5-flash",
               contents := l.flatMap turnBlock
                             ++ [{ role := "user", text := request.prompt }],
               system_instruction := system_instruction } := by
  have hfetch : fetchRecentTurns env.db request.user_id request.session_id = l.reverse := by
    unfold fetchRecentTurns
    rw [hrows]
    exact List.take_of_length_le (by simpa using hlen)
  have hcall : theAICall env.db request
      = { model := "gemini-2.5-flash",
          contents := l.flatMap turnBlock ++ [{ role := "user", text := request.prompt }],
          system_instruction := system_instruction } := by
    unfold theAICall contentsOf
    rw [hfetch, chatHistoryOf_eq, List.reverse_reverse]
  rw [aiCall_eq env request hc hdb hsel, hcall]

/-- Witness for `context_order`: two prior turns followed by prompt Hello
yield the five-message alternating sequence, with the system instruction
in the config slot. -/
theorem context_order_witness :
    (generate_ai_response
        { clientConfigured := true, dbConnects := true,
          db := [{ user_id := "u", session_id := "s", prompt := "q1", response := "a1" },
                 { user_id := "u", session_id := "s", prompt := "q2", response := "a2" }],
          selectOk := true, generate := fun _ => some "Hi there", insertOk := true }
        { user_id := "u", session_id := "s", prompt := "Hello" }).2.aiCall
      = some { model := "gemini-2.5-flash",
               contents := [{ role := "user", text := "q1" }, { role := "model", text := "a1" },
                            { role := "user", text := "q2" }, { role := "model", text := "a2" },
                            { role := "user", text := "Hello" }],
               system_instruction := system_instruction } :=
  context_order _ _ [("q1", "a1"), ("q2", "a2")] rfl rfl rfl (by decide) (by decide)

/-- C5: for a session with more than 5 prior turns, the history used for
the context (the SELECT result reversed back to chronological order) is
exactly the 5 most recent turns, oldest-first among themselves, and the
`chat_history` the context is built from interleaves exactly those 5. -/
theorem bounded_window (db : List Row) (uid sid : String)
    (l : List (String × String))
    (hrows : (sessionRows db uid sid).map (fun r => (r.prompt, r.response)) = l)
    (hlen : 5 < l.length) :
    (fetchRecentTurns db uid sid).reverse = l.drop (l.length - 5)
    ∧ (fetchRecentTurns db uid sid).length = 5
    ∧ chatHistoryOf (fetchRecentTurns db uid sid)
        = (l.drop (l.length - 5)).flatMap turnBlock := by
  have hfetch : fetchRecentTurns db uid sid = l.reverse.take 5 := by
    unfold fetchRecentTurns
    rw [hrows]
  have hrev : (fetchRecentTurns db uid sid).reverse = l.drop (l.length - 5) := by
    rw [hfetch, List.reverse_take]
    simp [List.reverse_reverse, List.length_reverse]
  refine ⟨hrev, ?_, ?_⟩
  · rw [hfetch, List.length_take, List.length_reverse]
    omega
  · rw [chatHistoryOf_eq, hrev]

/-- Witness for `bounded_window`: six prior turns in the session (plus one
row of an unrelated user) leave exactly the last five, oldest-first. -/
theorem bounded_window_witness :
    (fetchRecentTurns
        [{ user_id := "u", session_id := "s", prompt := "q1", response := "a1" },
         { user_id := "v", session_id := "s", prompt := "x", response := "y" },
         { user_id := "u", session_id := "s", prompt := "q2", response := "a2" },
         { user_id := "u", session_id := "s", prompt := "q3", response := "a3" },
         { user_id := "u", session_id := "s", prompt := "q4", response := "a4" },
         { user_id := "u", session_id := "s", prompt := "q5", response := "a5" },
         { user_id := "u", session_id := "s", prompt := "q6", response := "a6" }]
        "u" "s").reverse
      = [("q2", "a2"), ("q3", "a3"), ("q4", "a4"), ("q5", "a5"), ("q6", "a6")]
    ∧ (fetchRecentTurns
        [{ user_id := "u", session_id := "s", prompt := "q1", response := "a1" },
         { user_id := "v", session_id := "s", prompt := "x", response := "y" },
         { user_id := "u", session_id := "s", prompt := "q2", response := "a2" },
         { user_id := "u", session_id := "s", prompt := "q3", response := "a3" },
         { user_id := "u", session_id := "s", prompt := "q4", response := "a4" },
         { user_id := "u", session_id := "s", prompt := "q5", response := "a5" },
         { user_id := "u", session_id := "s", prompt := "q6", response := "a6" }]
        "u" "s").length = 5
    ∧ chatHistoryOf (fetchRecentTurns
        [{ user_id := "u", session_id := "s", prompt := "q1", response := "a1" },
         { user_id := "v", session_id := "s", prompt := "x", response := "y" },
         { user_id := "u", session_id := "s", prompt := "q2", response := "a2" },
         { user_id := "u", session_id := "s", prompt := "q3", response := "a3" },
         { user_id := "u", session_id := "s", prompt := "q4", response := "a4" },
         { user_id := "u", session_id := "s", prompt := "q5", response := "a5" },
         { user_id := "u", session_id := "s", prompt := "q6", response := "a6" }]
        "u" "s")
      = [("q2", "a2"), ("q3", "a3"), ("q4", "a4"), ("q5", "a5"), ("q6", "a6")].flatMap turnBlock :=
  bounded_window _ "u" "s"
    [("q1", "a1"), ("q2", "a2"), ("q3", "a3"), ("q4", "a4"), ("q5", "a5"), ("q6", "a6")]
    (by decide) (by decide)

/-- C10: for every request that reaches the AI call, the `contents` list
has exactly 2·h+1 entries where h is the number of fetched history rows
(h at most 5), strictly alternates roles starting with `user`, ends with a
`user` message carrying the current prompt, and contains no message with
role `system`. -/
theorem contents_shape_invariant (env : Env) (request : PromptRequest)
    (hc : env.clientConfigured = true) (hdb : env.dbConnects = true)
    (hsel : env.selectOk = true) :
    ∀ call : AICall, (generate_ai_response env request).2.aiCall = some call →
      call.contents.length
          = 2 * (fetchRecentTurns env.db request.user_id request.session_id).length + 1
      ∧ (fetchRecentTurns env.db request.user_id request.session_id).length ≤ 5
      ∧ rolesAlternate true call.contents = true
      ∧ call.contents.getLast? = some { role := "user", text := request.prompt }
      ∧ call.contents.all (fun m => !(m.role == "system")) = true := by
  intro call hcall
  rw [aiCall_eq env request hc hdb hsel] at hcall
  simp only [Option.some.injEq] at hcall
  subst hcall
  refine ⟨?_, ?_, ?_, ?_, ?_⟩
  · simp only [theAICall, contentsOf, chatHistoryOf_eq, List.length_append,
      length_flatMap_turnBlock, List.length_reverse, List.length_cons, List.length_nil]
  · simp only [fetchRecentTurns, List.length_take]
    omega
  · show rolesAlternate true (contentsOf _ _) = true
    rw [contentsOf, chatHistoryOf_eq, rolesAlternate_flatMap]
    simp [rolesAlternate]
  · exact List.getLast?_concat _
  · show (contentsOf _ _).all _ = true
    rw [contentsOf, chatHistoryOf_eq, List.all_append, noSystem_flatMap]
    simp [List.all_cons]

/-- Witness for `contents_shape_invariant`: one prior turn and prompt
Hello give a three-message alternating list ending in the user prompt with
no system-role message. -/
theorem contents_shape_invariant_witness :
    (theAICall [{ user_id := "u", session_id := "s", prompt := "q1", response := "a1" }]
        { user_id := "u", session_id := "s", prompt := "Hello" }).contents.length = 3
    ∧ (fetchRecentTurns
        [{ user_id := "u", session_id := "s", prompt := "q1", response := "a1" }]
        "u" "s").length ≤ 5
    ∧ rolesAlternate true
        (theAICall [{ user_id := "u", session_id := "s", prompt := "q1", response := "a1" }]
          { user_id := "u", session_id := "s", prompt := "Hello" }).contents = true
    ∧ (theAICall [{ user_id := "u", session_id := "s", prompt := "q1", response := "a1" }]
        { user_id := "u", session_id := "s", prompt := "Hello" }).contents.getLast?
      = some { role := "user", text := "Hello" }
    ∧ (theAICall [{ user_id := "u", session_id := "s", prompt := "q1", response := "a1" }]
        { user_id := "u", session_id := "s", prompt := "Hello" }).contents.all
        (fun m => !(m.role == "system")) = true :=
  contents_shape_invariant
    { clientConfigured := true, dbConnects := true,
      db := [{ user_id := "u", session_id := "s", prompt := "q1", response := "a1" }],
      selectOk := true, generate := fun _ => some "Hi there", insertOk := true }
    { user_id := "u", session_id := "s", prompt := "Hello" }
    rfl rfl rfl
    (theAICall [{ user_id := "u", session_id := "s", prompt := "q1", response := "a1" }]
      { user_id := "u", session_id := "s", prompt := "Hello" })
    rfl
